import Mathlib

/-!
Verification of the metrics extraction, evaluation, aggregation and
comparison logic of the ts-playwright-lighthouse repository.

The numeric values (audit numeric values, category scores, deltas and
percentages) are modelled as rationals; JavaScript `null`/`undefined` is
modelled as `Option.none`.  Records with a fixed set of keys
(`WebVitalsMetrics`, the evaluation record produced by
`evaluateWebVitals`, the diff record of `calculateWebVitalsDiffs`) are
modelled as structures with one `Option` field per key; `Record<string,
number>` objects with dynamic keys (category scores) are modelled as
association lists.
-/

/-- The seven tracked Web Vitals, the keys of `WebVitalsMetrics`
(src/webVitals.ts). -/
inductive MetricName
  | FCP
  | LCP
  | CLS
  | FID
  | TTI
  | TBT
  | TTFB
  deriving DecidableEq

/-- The three evaluation bands.  The source stores them as the strings
'良好' (good), '需要改进' (needs-improvement) and '较差' (poor). -/
inductive Band
  | good
  | needsImprovement
  | poor
  deriving DecidableEq

/-- `WebVitalsMetrics` of src/webVitals.ts: each field `number | null`. -/
structure WebVitalsMetrics where
  FCP : Option ℚ
  LCP : Option ℚ
  CLS : Option ℚ
  FID : Option ℚ
  TTI : Option ℚ
  TBT : Option ℚ
  TTFB : Option ℚ
  deriving DecidableEq

/-- Field lookup of a `WebVitalsMetrics` record by metric name. -/
def WebVitalsMetrics.get (m : WebVitalsMetrics) : MetricName → Option ℚ
  | MetricName.FCP => m.FCP
  | MetricName.LCP => m.LCP
  | MetricName.CLS => m.CLS
  | MetricName.FID => m.FID
  | MetricName.TTI => m.TTI
  | MetricName.TBT => m.TBT
  | MetricName.TTFB => m.TTFB

/-- The `Record<string, string>` built by `evaluateWebVitals`: a key per
metric, present only when that metric is present. -/
structure Evaluations where
  FCP : Option Band
  LCP : Option Band
  CLS : Option Band
  FID : Option Band
  TTI : Option Band
  TBT : Option Band
  TTFB : Option Band
  deriving DecidableEq

/-- Field lookup of an evaluation record by metric name. -/
def Evaluations.get (e : Evaluations) : MetricName → Option Band
  | MetricName.FCP => e.FCP
  | MetricName.LCP => e.LCP
  | MetricName.CLS => e.CLS
  | MetricName.FID => e.FID
  | MetricName.TTI => e.TTI
  | MetricName.TBT => e.TBT
  | MetricName.TTFB => e.TTFB

/-- `evaluateWebVitals` of src/webVitals.ts lines 57-138: for each present
metric an if/else-if/else chain with strict `<` against the two fixed
thresholds; an absent metric contributes no key. -/
def evaluateWebVitals (metrics : WebVitalsMetrics) : Evaluations where
  FCP := match metrics.FCP with
    | some v => some (if v < 1800 then Band.good
        else if v < 3000 then Band.needsImprovement else Band.poor)
    | none => none
  LCP := match metrics.LCP with
    | some v => some (if v < 2500 then Band.good
        else if v < 4000 then Band.needsImprovement else Band.poor)
    | none => none
  CLS := match metrics.CLS with
    | some v => some (if v < 0.1 then Band.good
        else if v < 0.25 then Band.needsImprovement else Band.poor)
    | none => none
  FID := match metrics.FID with
    | some v => some (if v < 100 then Band.good
        else if v < 300 then Band.needsImprovement else Band.poor)
    | none => none
  TTI := match metrics.TTI with
    | some v => some (if v < 3800 then Band.good
        else if v < 7300 then Band.needsImprovement else Band.poor)
    | none => none
  TBT := match metrics.TBT with
    | some v => some (if v < 200 then Band.good
        else if v < 600 then Band.needsImprovement else Band.poor)
    | none => none
  TTFB := match metrics.TTFB with
    | some v => some (if v < 800 then Band.good
        else if v < 1800 then Band.needsImprovement else Band.poor)
    | none => none

/-- The good/needs-improvement boundary per metric, as the spec lists it. -/
def lowerThreshold : MetricName → ℚ
  | MetricName.FCP => 1800
  | MetricName.LCP => 2500
  | MetricName.CLS => 0.1
  | MetricName.FID => 100
  | MetricName.TTI => 3800
  | MetricName.TBT => 200
  | MetricName.TTFB => 800

/-- The needs-improvement/poor boundary per metric, as the spec lists it. -/
def upperThreshold : MetricName → ℚ
  | MetricName.FCP => 3000
  | MetricName.LCP => 4000
  | MetricName.CLS => 0.25
  | MetricName.FID => 300
  | MetricName.TTI => 7300
  | MetricName.TBT => 600
  | MetricName.TTFB => 1800

/-- Characterisation of the three-way classification chain used by the
evaluator, for any pair of thresholds `lo ≤ hi`. -/
theorem band_chain_spec (lo hi v : ℚ) (hlh : lo ≤ hi) :
    ((if v < lo then Band.good
        else if v < hi then Band.needsImprovement else Band.poor) = Band.good
      ↔ v < lo) ∧
    ((if v < lo then Band.good
        else if v < hi then Band.needsImprovement else Band.poor)
        = Band.needsImprovement
      ↔ lo ≤ v ∧ v < hi) ∧
    ((if v < lo then Band.good
        else if v < hi then Band.needsImprovement else Band.poor) = Band.poor
      ↔ hi ≤ v) := by
  split_ifs with h1 h2 <;> refine ⟨?_, ?_, ?_⟩ <;> simp_all <;> linarith

/-- C1: for every metrics record and present metric value, the evaluator
assigns good iff the value is strictly below the metric's lower threshold,
needs-improvement iff it is at least the lower and strictly below the upper
threshold, and poor iff it is at least the upper threshold, with the fixed
thresholds FCP 1800/3000, LCP 2500/4000, CLS 0.1/0.25, FID 100/300,
TTI 3800/7300, TBT 200/600, TTFB 800/1800; in particular a value equal to
the lower threshold is needs-improvement and one equal to the upper
threshold is poor. -/
theorem C1_evaluator_band_thresholds (metrics : WebVitalsMetrics)
    (m : MetricName) (v : ℚ) (h : metrics.get m = some v) :
    ((evaluateWebVitals metrics).get m = some Band.good ↔ v < lowerThreshold m) ∧
    ((evaluateWebVitals metrics).get m = some Band.needsImprovement ↔
      lowerThreshold m ≤ v ∧ v < upperThreshold m) ∧
    ((evaluateWebVitals metrics).get m = some Band.poor ↔ upperThreshold m ≤ v) := by
  cases m <;>
    simp only [WebVitalsMetrics.get] at h <;>
    simp only [evaluateWebVitals, Evaluations.get, h, lowerThreshold,
      upperThreshold] <;>
    simpa only [Option.some.injEq] using band_chain_spec _ _ v (by norm_num)

/-- Sample record for the boundary witness: FCP exactly at its lower
threshold. -/
def sampleBoundaryMetrics : WebVitalsMetrics :=
  { FCP := some 1800, LCP := none, CLS := none, FID := none,
    TTI := none, TBT := none, TTFB := none }

/-- C1 witness: at FCP = 1800 (exactly the lower threshold) the theorem
applies and the evaluator's thresholds classify it. -/
theorem C1_evaluator_band_thresholds_witness :
    sampleBoundaryMetrics.get MetricName.FCP = some 1800 ∧
    (((evaluateWebVitals sampleBoundaryMetrics).get MetricName.FCP
        = some Band.good ↔ (1800 : ℚ) < lowerThreshold MetricName.FCP) ∧
      ((evaluateWebVitals sampleBoundaryMetrics).get MetricName.FCP
        = some Band.needsImprovement ↔
        lowerThreshold MetricName.FCP ≤ (1800 : ℚ) ∧
          (1800 : ℚ) < upperThreshold MetricName.FCP) ∧
      ((evaluateWebVitals sampleBoundaryMetrics).get MetricName.FCP
        = some Band.poor ↔ upperThreshold MetricName.FCP ≤ (1800 : ℚ))) :=
  ⟨rfl, C1_evaluator_band_thresholds sampleBoundaryMetrics MetricName.FCP 1800 rfl⟩

/-- C2: the evaluator's output has a key for a metric iff that metric's
value is present in the input record; it never has a key whose underlying
value is absent. -/
theorem C2_evaluator_key_iff_present (metrics : WebVitalsMetrics)
    (m : MetricName) :
    ((evaluateWebVitals metrics).get m).isSome = (metrics.get m).isSome := by
  cases m <;>
    simp only [WebVitalsMetrics.get, evaluateWebVitals, Evaluations.get] <;>
    [cases metrics.FCP; cases metrics.LCP; cases metrics.CLS;
      cases metrics.FID; cases metrics.TTI; cases metrics.TBT;
      cases metrics.TTFB] <;>
    rfl

/-- An entry of `lhr.audits`: its `score` is `number | null` and its
`numericValue` may be undefined (src/webVitals.ts `getMetricValue` reads
both). -/
structure Audit where
  score : Option ℚ
  numericValue : Option ℚ
  deriving DecidableEq

/-- The part of the audit-result object that `extractWebVitals` reads: the
`audits` mapping may itself be absent (`lhr.audits || {}`), and looking up
a missing audit id yields nothing. -/
structure LHR where
  audits : Option (String → Option Audit)

/-- `getMetricValue` of src/webVitals.ts lines 43-52: null when the audit
is missing or its score is null; the numeric value when defined; null
otherwise. -/
def getMetricValue (audit : Option Audit) : Option ℚ :=
  match audit with
  | none => none
  | some a =>
    if a.score = none then none
    else
      match a.numericValue with
      | some v => some v
      | none => none

/-- The audit id `extractWebVitals` looks up for each metric. -/
def auditId : MetricName → String
  | MetricName.FCP => "first-contentful-paint"
  | MetricName.LCP => "largest-contentful-paint"
  | MetricName.CLS => "cumulative-layout-shift"
  | MetricName.FID => "max-potential-fid"
  | MetricName.TTI => "interactive"
  | MetricName.TBT => "total-blocking-time"
  | MetricName.TTFB => "server-response-time"

/-- `extractWebVitals` of src/webVitals.ts lines 26-38. -/
def extractWebVitals (lhr : LHR) : WebVitalsMetrics :=
  let audits := lhr.audits.getD (fun _ => none)
  { FCP := getMetricValue (audits "first-contentful-paint"),
    LCP := getMetricValue (audits "largest-contentful-paint"),
    CLS := getMetricValue (audits "cumulative-layout-shift"),
    FID := getMetricValue (audits "max-potential-fid"),
    TTI := getMetricValue (audits "interactive"),
    TBT := getMetricValue (audits "total-blocking-time"),
    TTFB := getMetricValue (audits "server-response-time") }

/-- `getMetricValue` returns null exactly when the audit is missing, its
score is null or its numeric value is undefined, and otherwise returns the
audit's numeric value. -/
theorem getMetricValue_spec (audit : Option Audit) :
    (getMetricValue audit = none ↔
      audit = none ∨ ∃ a, audit = some a ∧ (a.score = none ∨ a.numericValue = none)) ∧
    (∀ v : ℚ, getMetricValue audit = some v →
      ∃ a, audit = some a ∧ a.score ≠ none ∧ a.numericValue = some v) := by
  cases audit with
  | none => simp [getMetricValue]
  | some a =>
    simp only [getMetricValue]
    by_cases hs : a.score = none
    · simp [hs]
    · cases hnv : a.numericValue <;> simp [hs, hnv]

/-- C3: for every audit-result object each of the 7 metrics of the record
returned by `extractWebVitals` is absent exactly when its named audit is
missing, the audit's score is null, or the audit's numeric value is
undefined, and otherwise equals the audit's numeric value; extraction is a
total function, so absence is a value, never a failure. -/
theorem C3_extractor_absence_is_a_value (lhr : LHR) (m : MetricName) :
    (extractWebVitals lhr).get m
      = getMetricValue ((lhr.audits.getD (fun _ => none)) (auditId m)) ∧
    ((extractWebVitals lhr).get m = none ↔
      (lhr.audits.getD (fun _ => none)) (auditId m) = none ∨
      ∃ a, (lhr.audits.getD (fun _ => none)) (auditId m) = some a ∧
        (a.score = none ∨ a.numericValue = none)) ∧
    (∀ v : ℚ, (extractWebVitals lhr).get m = some v →
      ∃ a, (lhr.audits.getD (fun _ => none)) (auditId m) = some a ∧
        a.score ≠ none ∧ a.numericValue = some v) := by
  have hg : (extractWebVitals lhr).get m
      = getMetricValue ((lhr.audits.getD (fun _ => none)) (auditId m)) := by
    cases m <;> rfl
  refine ⟨hg, ?_, ?_⟩
  · rw [hg]
    exact (getMetricValue_spec _).1
  · rw [hg]
    exact (getMetricValue_spec _).2

/-- One entry of the record built by `calculateWebVitalsDiffs`
(src/unnamed/part_000 lines 470-493). -/
structure VitalsDiff where
  absolute : ℚ
  percentage : ℚ
  improved : Bool
  deriving DecidableEq

/-- The diff record over the 7 metric keys; a key with either side absent
gets no entry. -/
structure WebVitalsDiffs where
  FCP : Option VitalsDiff
  LCP : Option VitalsDiff
  CLS : Option VitalsDiff
  FID : Option VitalsDiff
  TTI : Option VitalsDiff
  TBT : Option VitalsDiff
  TTFB : Option VitalsDiff
  deriving DecidableEq

/-- Field lookup of a diff record by metric name. -/
def WebVitalsDiffs.get (d : WebVitalsDiffs) : MetricName → Option VitalsDiff
  | MetricName.FCP => d.FCP
  | MetricName.LCP => d.LCP
  | MetricName.CLS => d.CLS
  | MetricName.FID => d.FID
  | MetricName.TTI => d.TTI
  | MetricName.TBT => d.TBT
  | MetricName.TTFB => d.TTFB

/-- The body of the loop of `calculateWebVitalsDiffs` for one key: an
entry exists only when both sides are non-null; percentage falls back to 0
when the baseline value is 0; `improved = absoluteDiff < 0`. -/
def diffForKey (baselineValue currentValue : Option ℚ) : Option VitalsDiff :=
  match baselineValue, currentValue with
  | some bv, some cv =>
    let absoluteDiff := cv - bv
    let percentageDiff := if bv ≠ 0 then absoluteDiff / bv * 100 else 0
    some { absolute := absoluteDiff, percentage := percentageDiff,
           improved := decide (absoluteDiff < 0) }
  | _, _ => none

/-- `calculateWebVitalsDiffs` of src/unnamed/part_000 lines 470-493: the
loop over the 7 keys of the baseline record. -/
def calculateWebVitalsDiffs (baselineWebVitals currentWebVitals : WebVitalsMetrics) :
    WebVitalsDiffs where
  FCP := diffForKey baselineWebVitals.FCP currentWebVitals.FCP
  LCP := diffForKey baselineWebVitals.LCP currentWebVitals.LCP
  CLS := diffForKey baselineWebVitals.CLS currentWebVitals.CLS
  FID := diffForKey baselineWebVitals.FID currentWebVitals.FID
  TTI := diffForKey baselineWebVitals.TTI currentWebVitals.TTI
  TBT := diffForKey baselineWebVitals.TBT currentWebVitals.TBT
  TTFB := diffForKey baselineWebVitals.TTFB currentWebVitals.TTFB

/-- C4: for every metric present in both records, the comparator entry has
absolute delta current − baseline, percentage delta delta/baseline×100 for
a nonzero baseline and exactly 0 for a zero baseline, and
improved = (delta < 0) unconditionally (for every metric, CLS included). -/
theorem C4_comparator_metric_delta (b c : WebVitalsMetrics) (m : MetricName)
    (bv cv : ℚ) (hb : b.get m = some bv) (hc : c.get m = some cv) :
    ∃ d, (calculateWebVitalsDiffs b c).get m = some d ∧
      d.absolute = cv - bv ∧
      (bv ≠ 0 → d.percentage = (cv - bv) / bv * 100) ∧
      (bv = 0 → d.percentage = 0) ∧
      (d.improved = true ↔ cv - bv < 0) := by
  have hg : (calculateWebVitalsDiffs b c).get m = diffForKey (b.get m) (c.get m) := by
    cases m <;> rfl
  rw [hg, hb, hc]
  simp only [diffForKey]
  refine ⟨_, rfl, rfl, fun h => by rw [if_pos h],
    fun h => by rw [if_neg (not_not_intro h)], by simp⟩

/-- Sample baseline for the C4 witness: LCP = 4000 (the spec's own
example). -/
def sampleDiffBaseline : WebVitalsMetrics :=
  { FCP := none, LCP := some 4000, CLS := none, FID := none,
    TTI := none, TBT := none, TTFB := none }

/-- Sample current record for the C4 witness: LCP = 2500. -/
def sampleDiffCurrent : WebVitalsMetrics :=
  { FCP := none, LCP := some 2500, CLS := none, FID := none,
    TTI := none, TBT := none, TTFB := none }

/-- C4 witness: baseline LCP 4000 vs current LCP 2500, so delta −1500,
percentage −37.5 and improved true. -/
theorem C4_comparator_metric_delta_witness :
    ∃ d, (calculateWebVitalsDiffs sampleDiffBaseline sampleDiffCurrent).get
        MetricName.LCP = some d ∧
      d.absolute = (2500 : ℚ) - 4000 ∧
      ((4000 : ℚ) ≠ 0 → d.percentage = ((2500 : ℚ) - 4000) / 4000 * 100) ∧
      ((4000 : ℚ) = 0 → d.percentage = 0) ∧
      (d.improved = true ↔ (2500 : ℚ) - 4000 < 0) :=
  C4_comparator_metric_delta sampleDiffBaseline sampleDiffCurrent
    MetricName.LCP 4000 2500 rfl rfl

/-- The color class of a table cell of the comparison report. -/
inductive DiffClass
  | improvement
  | regression
  | neutral
  deriving DecidableEq

/-- One rendered row of the Web Vitals comparison table. -/
structure ComparisonRow where
  key : MetricName
  baselineValue : ℚ
  currentValue : ℚ
  diff : ℚ
  percentDiff : ℚ
  diffClass : DiffClass
  deriving DecidableEq

/-- The key order of `webVitalsInfo` in `generateWebVitalsComparisonRows`. -/
def metricOrder : List MetricName :=
  [MetricName.FCP, MetricName.LCP, MetricName.CLS, MetricName.FID,
   MetricName.TTI, MetricName.TBT, MetricName.TTFB]

/-- One iteration of the row loop of `generateWebVitalsComparisonRows`:
`continue` (no row) when either side is null, otherwise the row's numbers
and its color class `diff < 0 ? improvement : diff > 0 ? regression :
neutral`. -/
def comparisonRowForKey (key : MetricName)
    (baselineValue currentValue : Option ℚ) : Option ComparisonRow :=
  match baselineValue, currentValue with
  | some bv, some cv =>
    let diff := cv - bv
    let percentDiff := if bv ≠ 0 then diff / bv * 100 else 0
    some { key := key, baselineValue := bv, currentValue := cv,
           diff := diff, percentDiff := percentDiff,
           diffClass := if diff < 0 then DiffClass.improvement
             else if diff > 0 then DiffClass.regression else DiffClass.neutral }
  | _, _ => none

/-- `generateWebVitalsComparisonRows` of src/unnamed/part_000 lines
498-548, modelled as the list of rows it renders (the surrounding HTML
text is not modelled). -/
def generateWebVitalsComparisonRows
    (baselineWebVitals currentWebVitals : WebVitalsMetrics) : List ComparisonRow :=
  metricOrder.filterMap fun key =>
    comparisonRowForKey key (baselineWebVitals.get key) (currentWebVitals.get key)

/-- A produced row carries the key it was produced for. -/
theorem comparisonRowForKey_key (key : MetricName) (bv cv : Option ℚ)
    (r : ComparisonRow) (h : comparisonRowForKey key bv cv = some r) :
    r.key = key := by
  cases bv <;> cases cv <;> simp [comparisonRowForKey] at h <;> simp [← h]

/-- A row is produced for a key iff both sides are present. -/
theorem comparisonRowForKey_isSome (key : MetricName) (bv cv : Option ℚ) :
    (comparisonRowForKey key bv cv).isSome = (bv.isSome && cv.isSome) := by
  cases bv <;> cases cv <;> rfl

/-- C5: the diff map has an entry for a metric iff both baseline and
current have a present value for it, and the comparison table renders a
row for a metric under exactly the same condition. -/
theorem C5_entry_iff_both_present (b c : WebVitalsMetrics) (m : MetricName) :
    (((calculateWebVitalsDiffs b c).get m).isSome ↔
      (b.get m).isSome ∧ (c.get m).isSome) ∧
    ((∃ r ∈ generateWebVitalsComparisonRows b c, r.key = m) ↔
      (b.get m).isSome ∧ (c.get m).isSome) := by
  have hmem : m ∈ metricOrder := by cases m <;> simp [metricOrder]
  constructor
  · have hg : (calculateWebVitalsDiffs b c).get m = diffForKey (b.get m) (c.get m) := by
      cases m <;> rfl
    rw [hg]
    cases b.get m <;> cases c.get m <;> simp [diffForKey]
  · constructor
    · rintro ⟨r, hr, hrk⟩
      rw [generateWebVitalsComparisonRows, List.mem_filterMap] at hr
      obtain ⟨a, _, hfa⟩ := hr
      have hak := comparisonRowForKey_key a _ _ r hfa
      have ham : a = m := by rw [← hak, hrk]
      subst ham
      have hs : (comparisonRowForKey a (b.get a) (c.get a)).isSome := by
        rw [hfa]; rfl
      rw [comparisonRowForKey_isSome] at hs
      simp_all [Bool.and_eq_true]
    · rintro ⟨hb, hc⟩
      have hs : (comparisonRowForKey m (b.get m) (c.get m)).isSome = true := by
        simp [comparisonRowForKey_isSome, hb, hc]
      obtain ⟨r, hr⟩ := Option.isSome_iff_exists.1 hs
      exact ⟨r, List.mem_filterMap.2 ⟨m, hmem, hr⟩,
        comparisonRowForKey_key m _ _ r hr⟩

/-- `calculateScoreDiffs` of src/unnamed/part_000 lines 456-465: one entry
per category of the baseline record; the current score falls back to 0
when absent (`currentScores[category] || 0`; for a present score of 0 the
fallback also yields 0, so `getD 0` is exact). -/
def calculateScoreDiffs (baselineScores currentScores : List (String × ℚ)) :
    List (String × ℚ) :=
  baselineScores.map fun e =>
    (e.1, (currentScores.lookup e.1).getD 0 - e.2)

/-- The category rows of the Lighthouse score table in
`generateComparisonHtml` (src/unnamed/part_000 lines 263-278), modelled as
(category, diff, color class): the class is
`diff > 1 ? improvement : diff < -1 ? regression : neutral`. -/
def scoreTableRows (baselineScores currentScores : List (String × ℚ)) :
    List (String × ℚ × DiffClass) :=
  baselineScores.map fun e =>
    let currentScore := (currentScores.lookup e.1).getD 0
    let diff := currentScore - e.2
    (e.1, diff, if diff > 1 then DiffClass.improvement
      else if diff < -1 then DiffClass.regression else DiffClass.neutral)

/-- Characterisation of the ±1 dead-zone classification chain. -/
theorem diff_class_chain_spec (d : ℚ) :
    ((if d > 1 then DiffClass.improvement
        else if d < -1 then DiffClass.regression else DiffClass.neutral)
        = DiffClass.improvement ↔ d > 1) ∧
    ((if d > 1 then DiffClass.improvement
        else if d < -1 then DiffClass.regression else DiffClass.neutral)
        = DiffClass.regression ↔ d < -1) ∧
    ((if d > 1 then DiffClass.improvement
        else if d < -1 then DiffClass.regression else DiffClass.neutral)
        = DiffClass.neutral ↔ -1 ≤ d ∧ d ≤ 1) := by
  split_ifs with h1 h2 <;> refine ⟨?_, ?_, ?_⟩ <;> simp_all <;> linarith

/-- C6: for a category present on both sides the category delta is the
current mean minus the baseline mean, classified improvement iff the delta
exceeds 1, regression iff it is below −1, and neutral otherwise (the
±1-point dead zone). -/
theorem C6_category_delta_dead_zone
    (baselineScores currentScores : List (String × ℚ)) (c : String)
    (score currentScore : ℚ) (hb : (c, score) ∈ baselineScores)
    (hc : currentScores.lookup c = some currentScore) :
    (c, currentScore - score) ∈ calculateScoreDiffs baselineScores currentScores ∧
    ∃ cls, (c, currentScore - score, cls) ∈ scoreTableRows baselineScores currentScores ∧
      (cls = DiffClass.improvement ↔ currentScore - score > 1) ∧
      (cls = DiffClass.regression ↔ currentScore - score < -1) ∧
      (cls = DiffClass.neutral ↔
        -1 ≤ currentScore - score ∧ currentScore - score ≤ 1) := by
  constructor
  · exact List.mem_map.2 ⟨(c, score), hb, by simp [hc]⟩
  · obtain ⟨hg, hr, hn⟩ := diff_class_chain_spec (currentScore - score)
    exact ⟨if currentScore - score > 1 then DiffClass.improvement
        else if currentScore - score < -1 then DiffClass.regression
        else DiffClass.neutral,
      List.mem_map.2 ⟨(c, score), hb, by simp [hc]⟩, hg, hr, hn⟩

/-- Baseline scores for the C6 witness (the spec's 70 vs 70.5 example). -/
def sampleBaselineScores : List (String × ℚ) := [("performance", 70)]

/-- Current scores for the C6 witness. -/
def sampleCurrentScores : List (String × ℚ) := [("performance", 70.5)]

/-- C6 witness: baseline 70, current 70.5; the delta 0.5 sits inside the
±1 dead zone, so the class of the row is neutral. -/
theorem C6_category_delta_dead_zone_witness :
    ((("performance", (70.5 : ℚ) - 70) ∈
        calculateScoreDiffs sampleBaselineScores sampleCurrentScores) ∧
      ∃ cls, ("performance", (70.5 : ℚ) - 70, cls) ∈
          scoreTableRows sampleBaselineScores sampleCurrentScores ∧
        (cls = DiffClass.improvement ↔ (70.5 : ℚ) - 70 > 1) ∧
        (cls = DiffClass.regression ↔ (70.5 : ℚ) - 70 < -1) ∧
        (cls = DiffClass.neutral ↔
          -1 ≤ (70.5 : ℚ) - 70 ∧ (70.5 : ℚ) - 70 ≤ 1)) ∧
    scoreTableRows sampleBaselineScores sampleCurrentScores
      = [("performance", 0.5, DiffClass.neutral)] :=
  ⟨C6_category_delta_dead_zone sampleBaselineScores sampleCurrentScores
      "performance" 70 70.5 (by simp [sampleBaselineScores]) rfl,
    by norm_num [scoreTableRows, sampleBaselineScores, sampleCurrentScores,
      List.lookup]⟩

/-- The four counters of `generateSummaryStats`
(src/unnamed/part_000 lines 553-581). -/
structure SummaryStats where
  improvedScores : ℕ
  regressedScores : ℕ
  improvedWebVitals : ℕ
  regressedWebVitals : ℕ
  deriving DecidableEq

/-- `Object.values` of the diff record: the present entries, in key
order. -/
def WebVitalsDiffs.values (d : WebVitalsDiffs) : List VitalsDiff :=
  [d.FCP, d.LCP, d.CLS, d.FID, d.TTI, d.TBT, d.TTFB].filterMap id

/-- `generateSummaryStats` of src/unnamed/part_000 lines 553-581, modelled
as the four counters it interpolates into the summary HTML: the first loop
counts score diffs with the ±1 dead zone, the second counts metric diffs
by the improved flag and, for regressions, `!improved &&
Math.abs(percentage) > 1`. -/
def generateSummaryStats (scoreDiffs : List (String × ℚ))
    (webVitalsDiffs : WebVitalsDiffs) : SummaryStats :=
  let scoreCounts := scoreDiffs.foldl
    (fun acc e =>
      if decide (e.2 > 1) then (acc.1 + 1, acc.2)
      else if decide (e.2 < -1) then (acc.1, acc.2 + 1)
      else acc)
    ((0, 0) : ℕ × ℕ)
  let vitalsCounts := webVitalsDiffs.values.foldl
    (fun acc d =>
      if d.improved then (acc.1 + 1, acc.2)
      else if !d.improved && decide (|d.percentage| > 1) then (acc.1, acc.2 + 1)
      else acc)
    ((0, 0) : ℕ × ℕ)
  { improvedScores := scoreCounts.1, regressedScores := scoreCounts.2,
    improvedWebVitals := vitalsCounts.1, regressedWebVitals := vitalsCounts.2 }

/-- A counting loop with two mutually exclusive boolean conditions counts
each condition's matches. -/
theorem pairCountFold {α : Type} (p q : α → Bool)
    (h : ∀ x, p x = true → q x = false) (l : List α) (i j : ℕ) :
    l.foldl
      (fun acc x =>
        if p x then (acc.1 + 1, acc.2)
        else if q x then (acc.1, acc.2 + 1)
        else acc)
      (i, j)
      = (i + l.countP p, j + l.countP q) := by
  induction l generalizing i j with
  | nil => simp
  | cons a t ih =>
    simp only [List.foldl_cons, List.countP_cons]
    cases hp : p a with
    | true =>
      have hq := h a hp
      simp [hp, hq, ih]
      omega
    | false =>
      cases hq : q a with
      | true =>
        simp [hp, hq, ih]
        omega
      | false => simp [hp, hq, ih]

/-- C7: in the summary counts a metric counts as an improvement iff its
improved flag is true and as a regression iff the flag is false and its
percentage magnitude exceeds 1, while category scores count with the ±1
dead zone on the raw delta — two different rules applied independently. -/
theorem C7_summary_counting_rules (scoreDiffs : List (String × ℚ))
    (webVitalsDiffs : WebVitalsDiffs) :
    (generateSummaryStats scoreDiffs webVitalsDiffs).improvedWebVitals
      = webVitalsDiffs.values.countP (fun d => d.improved) ∧
    (generateSummaryStats scoreDiffs webVitalsDiffs).regressedWebVitals
      = webVitalsDiffs.values.countP
          (fun d => !d.improved && decide (|d.percentage| > 1)) ∧
    (generateSummaryStats scoreDiffs webVitalsDiffs).improvedScores
      = scoreDiffs.countP (fun e => decide (e.2 > 1)) ∧
    (generateSummaryStats scoreDiffs webVitalsDiffs).regressedScores
      = scoreDiffs.countP (fun e => decide (e.2 < -1)) := by
  have hs := pairCountFold (fun e : String × ℚ => decide (e.2 > 1))
    (fun e => decide (e.2 < -1))
    (fun e hp => by
      simp only [decide_eq_true_eq] at hp
      simpa using by linarith) scoreDiffs 0 0
  have hv := pairCountFold (fun d : VitalsDiff => d.improved)
    (fun d => !d.improved && decide (|d.percentage| > 1))
    (fun d hp => by simp [hp]) webVitalsDiffs.values 0 0
  simp only at hs hv
  refine ⟨?_, ?_, ?_, ?_⟩ <;>
    simp only [generateSummaryStats] <;>
    (first | rw [hs] | rw [hv]) <;>
    simp

/-- The category-score data of one audit run: `runnerResult.lhr.categories`
may itself be absent, and each category key may be absent; a present
score is the engine's [0,1] score. -/
structure RunCategories where
  categories : Option (String → Option ℚ)

/-- One run's raw score for one category. -/
def RunCategories.rawScore (r : RunCategories) (c : String) : Option ℚ :=
  match r.categories with
  | none => none
  | some f => f c

/-- The score-collection loop of `runLighthouseTest` (src/README.md lines
425-432): for each run in order, when the category is present its score
rescaled by 100 is pushed onto that category's list; an absent category
contributes nothing. -/
def collectScores (runs : List RunCategories) (c : String) : List ℚ :=
  runs.filterMap fun r => (r.rawScore c).map fun score => score * 100

/-- The averaging loop of `runLighthouseTest` (src/README.md lines
461-469): for each configured category whose list is non-empty,
`avgScores[category] = sum / length`; a category with an empty list gets
no key. -/
def avgScores (cats : List String) (runs : List RunCategories) :
    List (String × ℚ) :=
  cats.filterMap fun c =>
    let l := collectScores runs c
    if l.length > 0 then some (c, l.sum / l.length) else none

/-- Lookup in the association list built by `avgScores`. -/
theorem avgScores_lookup (cats : List String) (runs : List RunCategories)
    (c : String) :
    (avgScores cats runs).lookup c
      = if c ∈ cats then
          (if (collectScores runs c).length > 0
            then some ((collectScores runs c).sum / (collectScores runs c).length)
            else none)
        else none := by
  induction cats with
  | nil => simp [avgScores]
  | cons a t ih =>
    by_cases hl : (collectScores runs a).length > 0
    · have hstep : avgScores (a :: t) runs
          = (a, (collectScores runs a).sum / (collectScores runs a).length)
            :: avgScores t runs := by
        simp [avgScores, List.filterMap_cons, hl]
      rw [hstep]
      by_cases hca : c = a
      · subst hca
        simp [List.lookup, hl]
      · simp [List.lookup, beq_false_of_ne hca, ih, List.mem_cons, hca]
    · have hstep : avgScores (a :: t) runs = avgScores t runs := by
        simp [avgScores, List.filterMap_cons, hl]
      rw [hstep]
      by_cases hca : c = a
      · subst hca
        rw [ih]
        by_cases hct : c ∈ t <;> simp [hct, hl]
      · simp [ih, List.mem_cons, hca]

/-- C8: for every run sequence and configured category, the aggregated
score is the arithmetic mean of the [0,1]→[0,100] rescaled scores over
exactly the runs in which the category is present: a run without the
category contributes nothing, and a category present in no run gets no
aggregated score. -/
theorem C8_aggregate_mean_of_present_runs (cats : List String)
    (runs : List RunCategories) (c : String) (h : c ∈ cats) :
    collectScores runs c
      = ((runs.filterMap fun r => r.rawScore c).map fun score => score * 100) ∧
    ((avgScores cats runs).lookup c = none ↔ ∀ r ∈ runs, r.rawScore c = none) ∧
    (∀ x, (avgScores cats runs).lookup c = some x →
      x = (collectScores runs c).sum / (collectScores runs c).length) := by
  refine ⟨by simp [collectScores, List.map_filterMap], ?_, ?_⟩
  · rw [avgScores_lookup, if_pos h]
    by_cases hl : (collectScores runs c).length > 0
    · rw [if_pos hl]
      constructor
      · intro hx
        exact absurd hx (by simp)
      · intro hall
        have : collectScores runs c = [] := by
          rw [collectScores, List.filterMap_eq_nil_iff]
          intro r hr
          rw [hall r hr]
          rfl
        rw [this] at hl
        exact absurd hl (by simp)
    · rw [if_neg hl]
      have hnil : collectScores runs c = [] := by
        cases hc : collectScores runs c with
        | nil => rfl
        | cons x xs => rw [hc] at hl; exact absurd (by simp) hl
      simp only [true_iff]
      intro r hr
      have := (List.filterMap_eq_nil_iff.1 hnil) r hr
      cases hraw : r.rawScore c with
      | none => rfl
      | some s => rw [hraw] at this; exact absurd this (by simp)
  · intro x hx
    rw [avgScores_lookup, if_pos h] at hx
    by_cases hl : (collectScores runs c).length > 0
    · rw [if_pos hl] at hx
      exact (Option.some.injEq _ _ ▸ hx).symm
    · rw [if_neg hl] at hx
      exact absurd hx (by simp)

/-- Three runs, all carrying a performance score (0.8, 1 and 0.6). -/
def sampleRuns : List RunCategories :=
  [{ categories := some fun _ => some (4/5) },
   { categories := some fun _ => some 1 },
   { categories := some fun _ => some (3/5) }]

/-- C8 witness: over the rescaled scores [80, 100, 60] the aggregated
performance score is exactly 80. -/
theorem C8_aggregate_mean_of_present_runs_witness :
    (collectScores sampleRuns "performance"
      = ((sampleRuns.filterMap fun r => r.rawScore "performance").map
          fun score => score * 100) ∧
    ((avgScores ["performance"] sampleRuns).lookup "performance" = none ↔
      ∀ r ∈ sampleRuns, r.rawScore "performance" = none) ∧
    (∀ x, (avgScores ["performance"] sampleRuns).lookup "performance" = some x →
      x = (collectScores sampleRuns "performance").sum
            / (collectScores sampleRuns "performance").length)) ∧
    collectScores sampleRuns "performance" = [80, 100, 60] ∧
    (avgScores ["performance"] sampleRuns).lookup "performance" = some 80 :=
  ⟨C8_aggregate_mean_of_present_runs ["performance"] sampleRuns "performance"
      (by simp),
    by norm_num [collectScores, sampleRuns, RunCategories.rawScore,
      List.filterMap_cons],
    by norm_num [avgScores, collectScores, sampleRuns, RunCategories.rawScore,
      List.filterMap_cons, List.lookup]⟩

/-- `WebVitalsResult` of src/webVitals.ts: one run's extracted metrics
plus run metadata. -/
structure WebVitalsResult where
  url : String
  metrics : WebVitalsMetrics
  timestamp : String
  device : String

/-- `TestResult` of src/README.md lines 592-599.  `webVitals` is modelled
as an `Option`: the source indexes `webVitalsResults[length - 1]`, which
is `undefined` for an empty run list. -/
structure TestResult where
  url : String
  device : String
  timestamp : String
  scores : List (String × ℚ)
  webVitals : Option WebVitalsMetrics

/-- The `testResult` construction of `runLighthouseTest` (src/README.md
lines 488-495): the embedded metrics record is
`webVitalsResults[webVitalsResults.length - 1].metrics`. -/
def buildTestResult (url device timestamp : String)
    (scores : List (String × ℚ)) (webVitalsResults : List WebVitalsResult) :
    TestResult :=
  { url := url, device := device, timestamp := timestamp, scores := scores,
    webVitals := (webVitalsResults[webVitalsResults.length - 1]?).map
      fun r => r.metrics }

/-- The per-metric static advice lists built by
`generateWebVitalsRecommendations` (src/webVitals.ts lines 143-213). -/
structure Recommendations where
  FCP : Option (List String)
  LCP : Option (List String)
  CLS : Option (List String)
  FID : Option (List String)
  TTI : Option (List String)
  TBT : Option (List String)
  TTFB : Option (List String)
  deriving DecidableEq

/-- `generateWebVitalsRecommendations` of src/webVitals.ts lines 143-213:
advice is attached only when the metric is present and its band is not
good ('良好'). -/
def generateWebVitalsRecommendations (metrics : WebVitalsMetrics)
    (evaluations : Evaluations) : Recommendations where
  FCP := if metrics.FCP ≠ none ∧ evaluations.FCP ≠ some Band.good
    then some ["优化服务器响应时间", "移除阻塞渲染的资源", "优化关键渲染路径"]
    else none
  LCP := if metrics.LCP ≠ none ∧ evaluations.LCP ≠ some Band.good
    then some ["优化最大内容元素的加载", "使用图片懒加载", "优化服务器响应时间",
      "预加载关键资源"]
    else none
  CLS := if metrics.CLS ≠ none ∧ evaluations.CLS ≠ some Band.good
    then some ["为图片和视频元素设置明确的宽高", "避免在已有内容上方插入内容",
      "使用transform动画代替影响布局的属性"]
    else none
  FID := if metrics.FID ≠ none ∧ evaluations.FID ≠ some Band.good
    then some ["减少JavaScript执行时间", "拆分长任务", "优化事件处理程序"]
    else none
  TTI := if metrics.TTI ≠ none ∧ evaluations.TTI ≠ some Band.good
    then some ["减少JavaScript的体积", "移除未使用的JavaScript", "使用代码分割",
      "延迟加载非关键JavaScript"]
    else none
  TBT := if metrics.TBT ≠ none ∧ evaluations.TBT ≠ some Band.good
    then some ["减少主线程工作", "减少JavaScript执行时间", "优化第三方脚本的影响"]
    else none
  TTFB := if metrics.TTFB ≠ none ∧ evaluations.TTFB ≠ some Band.good
    then some ["优化服务器处理时间", "使用CDN", "预连接到所需的源", "使用缓存"]
    else none

/-- The data assembled by `generateDetailedReport`
(src/reportGenerator.ts lines 29-54): the metrics, the evaluations and the
recommendations all come from `webVitalsResults[length - 1]`, modelled as
`Option`s for the empty-list case. -/
structure ReportData where
  url : String
  device : String
  scores : List (String × ℚ)
  webVitals : Option WebVitalsMetrics
  evaluations : Option Evaluations
  recommendations : Option Recommendations

/-- The `reportData` construction of `generateDetailedReport`
(src/reportGenerator.ts lines 34-45). -/
def generateDetailedReportData (results : TestResult)
    (webVitalsResults : List WebVitalsResult) : ReportData :=
  let lastRun := webVitalsResults[webVitalsResults.length - 1]?
  { url := results.url, device := results.device, scores := results.scores,
    webVitals := lastRun.map fun r => r.metrics,
    evaluations := lastRun.map fun r => evaluateWebVitals r.metrics,
    recommendations := lastRun.map fun r =>
      generateWebVitalsRecommendations r.metrics (evaluateWebVitals r.metrics) }

/-- C9: for a non-empty run sequence, the metrics record embedded in the
aggregated test result — and the one driving the detailed report's cards,
evaluations and recommendations — is exactly the record of the final run,
not an average across runs. -/
theorem C9_last_run_metrics (url device timestamp : String)
    (scores : List (String × ℚ)) (webVitalsResults : List WebVitalsResult)
    (h : webVitalsResults ≠ []) :
    (buildTestResult url device timestamp scores webVitalsResults).webVitals
      = some ((webVitalsResults.getLast h).metrics) ∧
    (generateDetailedReportData
        (buildTestResult url device timestamp scores webVitalsResults)
        webVitalsResults).webVitals
      = some ((webVitalsResults.getLast h).metrics) ∧
    (generateDetailedReportData
        (buildTestResult url device timestamp scores webVitalsResults)
        webVitalsResults).evaluations
      = some (evaluateWebVitals ((webVitalsResults.getLast h).metrics)) ∧
    (generateDetailedReportData
        (buildTestResult url device timestamp scores webVitalsResults)
        webVitalsResults).recommendations
      = some (generateWebVitalsRecommendations
          ((webVitalsResults.getLast h).metrics)
          (evaluateWebVitals ((webVitalsResults.getLast h).metrics))) := by
  have hlast : webVitalsResults[webVitalsResults.length - 1]?
      = some (webVitalsResults.getLast h) := by
    rw [← List.getLast?_eq_getElem?, List.getLast?_eq_getLast _ h]
  refine ⟨?_, ?_, ?_, ?_⟩ <;>
    simp [buildTestResult, generateDetailedReportData, hlast]

/-- A two-run history whose final run differs from its first. -/
def sampleVitalsHistory : List WebVitalsResult :=
  [{ url := "https://example.com", metrics := sampleDiffBaseline,
     timestamp := "t1", device := "Desktop" },
   { url := "https://example.com", metrics := sampleDiffCurrent,
     timestamp := "t2", device := "Desktop" }]

/-- C9 witness: with two runs, the embedded record is the second (final)
run's, concretely `sampleDiffCurrent`. -/
theorem C9_last_run_metrics_witness :
    ((buildTestResult "https://example.com" "Desktop" "t2" []
        sampleVitalsHistory).webVitals
      = some ((sampleVitalsHistory.getLast
          (by simp [sampleVitalsHistory])).metrics) ∧
    (generateDetailedReportData
        (buildTestResult "https://example.com" "Desktop" "t2" []
          sampleVitalsHistory)
        sampleVitalsHistory).webVitals
      = some ((sampleVitalsHistory.getLast
          (by simp [sampleVitalsHistory])).metrics) ∧
    (generateDetailedReportData
        (buildTestResult "https://example.com" "Desktop" "t2" []
          sampleVitalsHistory)
        sampleVitalsHistory).evaluations
      = some (evaluateWebVitals
          ((sampleVitalsHistory.getLast (by simp [sampleVitalsHistory])).metrics)) ∧
    (generateDetailedReportData
        (buildTestResult "https://example.com" "Desktop" "t2" []
          sampleVitalsHistory)
        sampleVitalsHistory).recommendations
      = some (generateWebVitalsRecommendations
          ((sampleVitalsHistory.getLast (by simp [sampleVitalsHistory])).metrics)
          (evaluateWebVitals
            ((sampleVitalsHistory.getLast
              (by simp [sampleVitalsHistory])).metrics)))) ∧
    (buildTestResult "https://example.com" "Desktop" "t2" []
        sampleVitalsHistory).webVitals = some sampleDiffCurrent :=
  ⟨C9_last_run_metrics "https://example.com" "Desktop" "t2" []
      sampleVitalsHistory (by simp [sampleVitalsHistory]), rfl⟩

/-- What the process did, as observable from outside: its exit code, the
error the logger surfaced (if any), how many audit runs completed, and
whether the post-loop report generation was reached. -/
structure ProcessOutcome where
  exitCode : ℕ
  loggedError : Option String
  completedRuns : ℕ
  reportsGenerated : Bool
  deriving DecidableEq

/-- The audit loop of `runLighthouseTest` (src/README.md lines 359-455):
each iteration's `await lighthouse(...)` either yields or throws; a throw
aborts the loop and transfers control to the `catch`.  The result is the
number of completed runs, or the first error. -/
def runLoop : List (Except String Unit) → Except String ℕ
  | [] => Except.ok 0
  | Except.ok _ :: rest =>
    match runLoop rest with
    | Except.ok n => Except.ok (n + 1)
    | Except.error e => Except.error e
  | Except.error e :: _ => Except.error e

/-- The control flow of `runLighthouseTest` and its top-level call
(src/README.md lines 187-579 and 602-605).  `chromeLauncher.launch`
happens before the `try`, so a launch failure rejects the promise and
reaches `runLighthouseTest().catch`, which logs and calls
`process.exit(1)`.  An error thrown inside the `try` — any run's audit
failure included — aborts the remaining runs and skips report generation,
but the inner `catch` (lines 573-575) only logs it: the function then
resolves normally and the process exits 0.  The `finally`'s
`chrome.kill()` is assumed to succeed. -/
def runLighthouseTest (launch : Except String Unit)
    (outcomes : List (Except String Unit)) : ProcessOutcome :=
  match launch with
  | Except.error e =>
    { exitCode := 1, loggedError := some e, completedRuns := 0,
      reportsGenerated := false }
  | Except.ok _ =>
    match runLoop outcomes with
    | Except.ok n =>
      { exitCode := 0, loggedError := none, completedRuns := n,
        reportsGenerated := true }
    | Except.error e =>
      { exitCode := 0, loggedError := some e,
        completedRuns := (outcomes.takeWhile fun o => o.isOk).length,
        reportsGenerated := false }

/-- C10 counterexample: when the single audit run fails, the error is
logged and the aggregation aborts, but the process exits 0 — not with a
non-zero code as the claim states. -/
theorem C10_run_error_exits_zero :
    (runLighthouseTest (Except.ok ()) [Except.error "audit failed"]).exitCode
      = 0 ∧
    (runLighthouseTest (Except.ok ())
        [Except.error "audit failed"]).loggedError = some "audit failed" ∧
    (runLighthouseTest (Except.ok ())
        [Except.error "audit failed"]).reportsGenerated = false :=
  ⟨rfl, rfl, rfl⟩

/-- C10 amended: an error raised inside the main try block (a run's audit
failure included) aborts the remaining runs and report generation and is
surfaced through the logger, but the inner catch swallows it and the
process exits 0; only errors raised outside the try/catch — such as a
browser-launch failure — reach the top-level handler and exit 1; success
exits 0. -/
theorem C10_error_handling (launch : Except String Unit)
    (outcomes : List (Except String Unit)) :
    (∀ e, launch = Except.error e →
      (runLighthouseTest launch outcomes).exitCode = 1 ∧
      (runLighthouseTest launch outcomes).loggedError = some e) ∧
    (launch = Except.ok () →
      (runLighthouseTest launch outcomes).exitCode = 0) ∧
    (∀ e, launch = Except.ok () → runLoop outcomes = Except.error e →
      (runLighthouseTest launch outcomes).loggedError = some e ∧
      (runLighthouseTest launch outcomes).reportsGenerated = false ∧
      (runLighthouseTest launch outcomes).completedRuns
        = (outcomes.takeWhile fun o => o.isOk).length) ∧
    (∀ n, launch = Except.ok () → runLoop outcomes = Except.ok n →
      (runLighthouseTest launch outcomes).loggedError = none ∧
      (runLighthouseTest launch outcomes).reportsGenerated = true ∧
      (runLighthouseTest launch outcomes).completedRuns = n) := by
  refine ⟨?_, ?_, ?_, ?_⟩
  · rintro e rfl
    exact ⟨rfl, rfl⟩
  · rintro rfl
    simp only [runLighthouseTest]
    cases runLoop outcomes <;> rfl
  · rintro e rfl hloop
    simp [runLighthouseTest, hloop]
  · rintro n rfl hloop
    simp [runLighthouseTest, hloop]
